import Mathlib

/-!
Verification of the RGS slot-engine core (`rgs-core/app/main.py`).

Shallow embedding conventions:
* Monetary amounts (Python `float`) are modelled as `ℚ`; the settlement
  arithmetic consists of additions, subtractions and one division by the
  payline count, all exact.
* The drawn 3×5 grid is modelled as a function `Nat → Nat → String`
  (the code only reads cells with row < 3, col < 5, matching generation).
* The relational store is modelled as a state record of association lists;
  SQLAlchemy's commit/rollback discipline is modelled by computing the
  post-transaction state and returning either it (commit) or the original
  state (rollback on any error), mirroring the `try/except → db.rollback()`
  structure of `spin`.
* Currency codes and timestamps are pass-through data with no bearing on
  any claim and are omitted from the record types.
-/

namespace RGS

/-- Association-list lookup, modelling Python `dict` membership tests and
subscripting (`k in d`, `d[k]`): `none` exactly when the key is absent. -/
def assoc {α β : Type} [DecidableEq α] (k : α) : List (α × β) → Option β
  | [] => none
  | (k', v) :: rest => if k = k' then some v else assoc k rest

/-! ### Paytable Catalog (module-level constants of `main.py`) -/

def SLOT_ROWS : Nat := 3
def SLOT_REELS : Nat := 5

def SLOT_SYMBOLS : List String := ["10", "J", "Q", "K", "A", "W", "S"]
def SLOT_WEIGHTS : List Nat := [10, 8, 7, 6, 5, 2, 2]

/-- `PAYTABLE`: per symbol, multiplier on the *line bet* keyed by run count. -/
def PAYTABLE : List (String × List (Nat × ℚ)) :=
  [("10", [(3, 1), (4, 2), (5, 4)]),
   ("J",  [(3, 2), (4, 4), (5, 8)]),
   ("Q",  [(3, 3), (4, 6), (5, 12)]),
   ("K",  [(3, 4), (4, 8), (5, 16)]),
   ("A",  [(3, 5), (4, 10), (5, 20)]),
   ("W",  [(3, 8), (4, 16), (5, 32)])]

def SCATTER_SYMBOL : String := "S"

/-- `SCATTER_PAY`: multiplier on the total bet, keyed by scatter count. -/
def SCATTER_PAY : List (Nat × ℚ) := [(3, 2), (4, 5), (5, 20)]

/-- `PAYLINES`: five lines of (row, col) coordinates. -/
def PAYLINES : List (List (Nat × Nat)) :=
  [[(0, 0), (0, 1), (0, 2), (0, 3), (0, 4)],
   [(1, 0), (1, 1), (1, 2), (1, 3), (1, 4)],
   [(2, 0), (2, 1), (2, 2), (2, 3), (2, 4)],
   [(0, 0), (1, 1), (2, 2), (1, 3), (0, 4)],
   [(2, 0), (1, 1), (0, 2), (1, 3), (2, 4)]]

/-! ### Outcome Engine (the grid-evaluation part of `spin`, lines 341–380) -/

/-- A drawn grid: the cell at row `r`, reel `c` (the code only reads
`r < SLOT_ROWS`, `c < SLOT_REELS`, the shape it generates). -/
def Grid := Nat → Nat → String

/-- One entry of `line_win_messages`: either a payline win
`f"Line {idx+1}: {sym} x{count} pays {amount}"` or the scatter win
`f"Scatter: {count}x S pays {amount}"`, kept structured. -/
inductive Contribution where
  | line (lineNo : Nat) (symbol : String) (count : Nat) (amount : ℚ)
  | scatter (count : Nat) (amount : ℚ)
deriving DecidableEq

def Contribution.amount : Contribution → ℚ
  | .line _ _ _ a => a
  | .scatter _ a => a

/-- The symbols consumed by the payline loop after the leftmost one:
`for symbol in line_symbols[1:]` increments while `symbol == base_symbol`
and `break`s at the first difference. -/
def matchedRun (base : String) : List String → List String
  | [] => []
  | s :: rest => if s = base then s :: matchedRun base rest else []

/-- The final value of the loop's `count` variable: `count = 1`, plus one
per consecutive matching symbol. -/
def runLen (base : String) (rest : List String) : Nat :=
  1 + (matchedRun base rest).length

/-- The body of the payline loop (lines 346–366) for one line's symbols:
`none` when the line contributes nothing, otherwise the winning symbol,
run length and amount `line_bet * PAYTABLE[base][count]`. -/
def lineWin (lineBet : ℚ) (lineSymbols : List String) : Option (String × Nat × ℚ) :=
  match lineSymbols with
  | [] => none
  | baseSymbol :: rest =>
    if baseSymbol = SCATTER_SYMBOL then none
    else
      (assoc baseSymbol PAYTABLE).bind fun tbl =>
        let count := runLen baseSymbol rest
        if 3 ≤ count then
          (assoc count tbl).map fun mult => (baseSymbol, count, lineBet * mult)
        else none

/-- `[grid[r][c] for (r, c) in line]`. -/
def lineSymbols (grid : Grid) (line : List (Nat × Nat)) : List String :=
  line.map fun rc => grid rc.1 rc.2

/-- All payline contributions in catalog order (the loop over
`enumerate(PAYLINES)`), message line numbers being `idx + 1`. -/
def evalLines (grid : Grid) (lineBet : ℚ) : List Contribution :=
  PAYLINES.enum.filterMap fun il =>
    (lineWin lineBet (lineSymbols grid il.2)).map fun w =>
      Contribution.line (il.1 + 1) w.1 w.2.1 w.2.2

/-- The list of row lists the generation loop builds (3 rows of 5 cells). -/
def gridRows (grid : Grid) : List (List String) :=
  (List.range SLOT_ROWS).map fun r => (List.range SLOT_REELS).map (grid r)

/-- `sum(1 for row in grid for symbol in row if symbol == SCATTER_SYMBOL)`. -/
def scatterCount (grid : Grid) : Nat :=
  ((gridRows grid).flatten.filter (· == SCATTER_SYMBOL)).length

/-- Scatter evaluation (lines 369–378): with `sc ≥ 3`, take the largest
key of `SCATTER_PAY` that is `≤ sc` and pay `bet * SCATTER_PAY[best]`.
(The inner `none` branches are unreachable: `3` is always an applicable
key once `3 ≤ sc`, and `best` is itself a key.) -/
def scatterEval (bet : ℚ) (sc : Nat) : Option Contribution :=
  if 3 ≤ sc then
    (((SCATTER_PAY.map Prod.fst).filter (· ≤ sc)).max?).bind fun best =>
      (assoc best SCATTER_PAY).map fun mult => Contribution.scatter sc (bet * mult)
  else none

/-- The transient outcome of one evaluation: `win_amount`,
`line_win_messages` and `scatter_count`. -/
structure Outcome where
  winAmount : ℚ
  messages : List Contribution
  scatterCount : Nat
deriving DecidableEq

/-- The whole evaluation block of `spin` (lines 341–380) as a function of
the drawn grid and the bet: line bet, payline loop, scatter evaluation,
`win_amount = total_line_win + scatter_win`. -/
def evalSpin (grid : Grid) (bet : ℚ) : Outcome :=
  let lineBet := bet / (PAYLINES.length : ℚ)
  let lineContribs := evalLines grid lineBet
  let totalLineWin := (lineContribs.map Contribution.amount).sum
  let sc := scatterCount grid
  let scatterContrib := scatterEval bet sc
  let scatterWin := (scatterContrib.map Contribution.amount).getD 0
  { winAmount := totalLineWin + scatterWin
    messages := lineContribs ++ scatterContrib.toList
    scatterCount := sc }

/-! ### Store state, Wallet Ledger Transaction and Round Orchestrator -/

/-- A `Session` row: the fields `spin` reads (`player_id`, `active`). -/
structure SessionRec where
  player_id : String
  active : Bool
deriving DecidableEq

/-- A `GameRound` row (currency/timestamp pass-through fields omitted). -/
structure RoundRec where
  id : String
  player_id : String
  session_id : String
  game_id : String
  bet_amount : ℚ
  win_amount : ℚ
  new_balance : ℚ
deriving DecidableEq

/-- The committed database state: `players` keyed by
(`operator_id`, `external_player_id`) giving the player's `id`,
`wallet_accounts` keyed by `player_id` giving `balance`,
`sessions` keyed by session `id`, and the `game_rounds` table. -/
structure St where
  players : List ((String × String) × String)
  sessions : List (String × SessionRec)
  wallets : List (String × ℚ)
  rounds : List RoundRec
deriving DecidableEq

/-- `wallet.balance = b` for the row with the given `player_id`. -/
def setBalance (ws : List (String × ℚ)) (pid : String) (b : ℚ) :
    List (String × ℚ) :=
  ws.map fun kv => if kv.1 = pid then (kv.1, b) else kv

/-- The distinct error responses of `spin`: one per `HTTPException(400, …)`
(client-declined) plus the generic 500 wrapper for faults reaching the
final `except Exception` handler. -/
inductive SpinErr where
  | invalidSession
  | sessionPlayerMismatch
  | walletNotFound
  | nonPositiveBet
  | insufficientBalance
  | txFault
deriving DecidableEq

/-- The successful `SpinResponse` payload (currency/timestamp omitted;
`line_wins=line_win_messages or None`, so an empty message list is sent
as `None`, not as an empty list). -/
structure SpinResponse where
  round_id : String
  player_id : String
  game_id : String
  bet_amount : ℚ
  win_amount : ℚ
  new_balance : ℚ
  grid : Grid
  line_wins : Option (List Contribution)
  scatter_count : Nat

/-- The `spin` endpoint. The randomness draw is modelled by passing in the
`grid` that `random.choices` would produce (it is only consumed after all
validation passes), and `round_id` stands for the fresh `uuid4`. `fault`
injects a failure between the debit and the commit (store fault,
constraint violation, unexpected exception): in that case the
`except … db.rollback()` path returns the state unchanged. Every
`HTTPException` path also rolls back, leaving the committed state as it
was. -/
def spin (st : St) (game_id : String) (session_id : String)
    (player_id : String) (bet_amount : ℚ) (grid : Grid) (round_id : String)
    (fault : Bool) : St × Except SpinErr SpinResponse :=
  match assoc session_id st.sessions with
  | none => (st, .error .invalidSession)
  | some sess =>
    if sess.active = false then (st, .error .invalidSession)
    else if sess.player_id ≠ player_id then (st, .error .sessionPlayerMismatch)
    else
      match assoc player_id st.wallets with
      | none => (st, .error .walletNotFound)
      | some balance =>
        if bet_amount ≤ 0 then (st, .error .nonPositiveBet)
        else if balance < bet_amount then (st, .error .insufficientBalance)
        else
          -- debit bet, evaluate grid, apply win
          let out := evalSpin grid bet_amount
          let new_balance := balance - bet_amount + out.winAmount
          let round : RoundRec :=
            { id := round_id, player_id := player_id
              session_id := session_id, game_id := game_id
              bet_amount := bet_amount, win_amount := out.winAmount
              new_balance := new_balance }
          let committed : St :=
            { st with wallets := setBalance st.wallets player_id new_balance
                      rounds := round :: st.rounds }
          let resp : SpinResponse :=
            { round_id := round_id, player_id := player_id
              game_id := game_id, bet_amount := bet_amount
              win_amount := out.winAmount, new_balance := new_balance
              grid := grid
              line_wins := if out.messages.isEmpty then none else some out.messages
              scatter_count := out.scatterCount }
          if fault then (st, .error .txFault) else (committed, .ok resp)

/-- The `SessionStartResponse` payload (currency/timestamp omitted). -/
structure SessionStartResponse where
  session_id : String
  player_id : String
  balance : ℚ
deriving DecidableEq

/-- The `/session/start` endpoint: create-or-fetch player, create-or-fetch
wallet (1000.0 starting balance on creation), always create a new active
session. `session_id` stands for the fresh `uuid4`. -/
def start_session (st : St) (operator_id : String)
    (external_player_id : String) (session_id : String) :
    St × SessionStartResponse :=
  let pidSt :=
    match assoc (operator_id, external_player_id) st.players with
    | some pid => (pid, st)
    | none =>
      let pid := "player-" ++ external_player_id
      (pid, { st with
                players := ((operator_id, external_player_id), pid) :: st.players })
  let pid := pidSt.1
  let st1 := pidSt.2
  let balSt :=
    match assoc pid st1.wallets with
    | some b => (b, st1)
    | none => ((1000 : ℚ), { st1 with wallets := (pid, (1000 : ℚ)) :: st1.wallets })
  let balance := balSt.1
  let st2 := balSt.2
  let st3 := { st2 with sessions := (session_id, ⟨pid, true⟩) :: st2.sessions }
  (st3, { session_id := session_id, player_id := pid, balance := balance })

/-! ### Concrete witness data -/

/-- A small committed store: one player with a 1000 wallet, one active
session bound to them, one active session bound to a wallet-less player,
one inactive session. -/
def sampleState : St :=
  { players := [(("op-1", "ext-1"), "player-ext-1")]
    sessions := [("sid-1", ⟨"player-ext-1", true⟩),
                 ("sid-2", ⟨"p1", true⟩),
                 ("sid-3", ⟨"player-ext-1", false⟩)]
    wallets := [("player-ext-1", 1000)]
    rounds := [] }

/-- A second, unrelated committed store. -/
def sampleState2 : St :=
  { players := [(("op-2", "ext-2"), "p2")]
    sessions := [("sess-b", ⟨"p2", true⟩)]
    wallets := [("p2", 500)]
    rounds := [] }

/-- A drawn grid with no winning lines and no scatter cells: every line
reads a symbol change at reel 2. -/
def noWinGrid : Grid := fun r c =>
  if c = 0 then "A" else if r = 0 then "K" else "Q"

/-- A drawn grid whose middle row starts with three aces. -/
def winGrid : Grid := fun r c =>
  if r = 1 then (if c < 3 then "A" else "K") else "10"

/-- The committed state after the no-win spin from `sampleState`. -/
def sampleSt1' : St :=
  { sampleState with
      wallets := [("player-ext-1", 990)]
      rounds := [⟨"rid-1", "player-ext-1", "sid-1", "game-1", 10, 0, 990⟩] }

/-- The response of the no-win spin from `sampleState`. -/
def sampleResp1 : SpinResponse :=
  { round_id := "rid-1", player_id := "player-ext-1", game_id := "game-1"
    bet_amount := 10, win_amount := 0, new_balance := 990
    grid := noWinGrid, line_wins := none, scatter_count := 0 }

/-- The committed state after the no-win spin from `sampleState2`. -/
def sampleSt2' : St :=
  { sampleState2 with
      wallets := [("p2", 490)]
      rounds := [⟨"rid-2", "p2", "sess-b", "game-2", 10, 0, 490⟩] }

/-- The response of the no-win spin from `sampleState2`. -/
def sampleResp2 : SpinResponse :=
  { round_id := "rid-2", player_id := "p2", game_id := "game-2"
    bet_amount := 10, win_amount := 0, new_balance := 490
    grid := noWinGrid, line_wins := none, scatter_count := 0 }

/-! ### Helper lemmas -/

theorem assoc_mem {α β : Type} [DecidableEq α] {k : α} {v : β} :
    ∀ {l : List (α × β)}, assoc k l = some v → (k, v) ∈ l := by
  intro l
  induction l with
  | nil => intro h; simp [assoc] at h
  | cons kv rest ih =>
    intro h
    rcases kv with ⟨k', v'⟩
    by_cases hk : k = k'
    · simp [assoc, hk] at h
      simp [hk, h]
    · simp [assoc, hk] at h
      exact List.mem_cons_of_mem _ (ih h)

theorem matchedRun_mem {base : String} :
    ∀ {rest : List String} {s : String}, s ∈ matchedRun base rest → s = base := by
  intro rest
  induction rest with
  | nil => intro s h; simp [matchedRun] at h
  | cons x xs ih =>
    intro s h
    by_cases hx : x = base
    · simp [matchedRun, hx] at h
      rcases h with h | h
      · exact h
      · exact ih h
    · simp [matchedRun, hx] at h

theorem matchedRun_take {base : String} :
    ∀ rest : List String,
      rest.take (matchedRun base rest).length = matchedRun base rest := by
  intro rest
  induction rest with
  | nil => simp [matchedRun]
  | cons x xs ih =>
    by_cases hx : x = base
    · simp [matchedRun, hx, ih]
    · simp [matchedRun, hx]

theorem matchedRun_stop {base : String} :
    ∀ {rest : List String} (h : (matchedRun base rest).length < rest.length),
      rest.get ⟨(matchedRun base rest).length, h⟩ ≠ base := by
  intro rest
  induction rest with
  | nil => intro h; simp [matchedRun] at h
  | cons x xs ih =>
    intro h
    by_cases hx : x = base
    · simpa [matchedRun, hx] using ih (by simpa [matchedRun, hx] using h)
    · simp [matchedRun, hx]

/-- Every tabulated line multiplier is non-negative. -/
theorem paytable_mults_nonneg :
    ∀ p ∈ PAYTABLE, ∀ q ∈ p.2, (0 : ℚ) ≤ q.2 := by decide

/-- Every tabulated scatter multiplier is non-negative. -/
theorem scatter_mults_nonneg : ∀ q ∈ SCATTER_PAY, (0 : ℚ) ≤ q.2 := by decide

theorem lineWin_nonneg {lb : ℚ} (hlb : 0 ≤ lb) {syms : List String}
    {w : String × Nat × ℚ} (h : lineWin lb syms = some w) : 0 ≤ w.2.2 := by
  match syms with
  | [] => simp [lineWin] at h
  | base :: rest =>
    rw [lineWin] at h
    by_cases hb : base = SCATTER_SYMBOL
    · simp [hb] at h
    · rcases htbl : assoc base PAYTABLE with _ | tbl
      · simp [hb, htbl] at h
      · by_cases hc : 3 ≤ runLen base rest
        · rcases hm : assoc (runLen base rest) tbl with _ | mult
          · simp [hb, htbl, hc, hm] at h
          · simp only [if_neg hb, htbl, Option.some_bind, if_pos hc, hm,
              Option.map_some', Option.some.injEq] at h
            have h1 := assoc_mem htbl
            have h2 := assoc_mem hm
            have hmn : (0 : ℚ) ≤ mult :=
              paytable_mults_nonneg _ h1 _ h2
            rw [← h]
            exact mul_nonneg hlb hmn
        · simp [hb, htbl, hc] at h

theorem evalLines_nonneg {grid : Grid} {lb : ℚ} (hlb : 0 ≤ lb) :
    ∀ c ∈ evalLines grid lb, 0 ≤ c.amount := by
  intro c hc
  rw [evalLines] at hc
  rcases List.mem_filterMap.mp hc with ⟨il, _, h⟩
  rcases hw : lineWin lb (lineSymbols grid il.2) with _ | w
  · rw [hw] at h; simp at h
  · rw [hw] at h
    simp only [Option.map_some', Option.some.injEq] at h
    rw [← h]
    exact lineWin_nonneg hlb hw

theorem scatterEval_nonneg {bet : ℚ} (hbet : 0 ≤ bet) {sc : Nat}
    {c : Contribution} (h : scatterEval bet sc = some c) : 0 ≤ c.amount := by
  rw [scatterEval] at h
  by_cases h3 : 3 ≤ sc
  · rcases hmax : ((SCATTER_PAY.map Prod.fst).filter (· ≤ sc)).max? with _ | best
    · simp [h3, hmax] at h
    · rcases hm : assoc best SCATTER_PAY with _ | mult
      · simp [h3, hmax, hm] at h
      · simp only [if_pos h3, hmax, Option.some_bind, hm, Option.map_some',
          Option.some.injEq] at h
        have := scatter_mults_nonneg _ (assoc_mem hm)
        rw [← h]
        exact mul_nonneg hbet this
  · simp [h3] at h

/-- `win_amount = total_line_win + scatter_win` is exactly the sum of the
amounts of the recorded contribution messages. -/
theorem evalSpin_winAmount_eq_sum (grid : Grid) (bet : ℚ) :
    (evalSpin grid bet).winAmount =
      ((evalSpin grid bet).messages.map Contribution.amount).sum := by
  rw [evalSpin]
  rcases h : scatterEval bet (scatterCount grid) with _ | c <;>
    simp [h, Option.toList]

/-- The evaluated payout is non-negative whenever the bet is. -/
theorem evalSpin_winAmount_nonneg {grid : Grid} {bet : ℚ} (hbet : 0 ≤ bet) :
    0 ≤ (evalSpin grid bet).winAmount := by
  rw [evalSpin]
  have hlb : 0 ≤ bet / (PAYLINES.length : ℚ) := by
    apply div_nonneg hbet
    simp [PAYLINES]
  have h1 : 0 ≤ ((evalLines grid (bet / (PAYLINES.length : ℚ))).map
      Contribution.amount).sum := by
    apply List.sum_nonneg
    intro x hx
    rcases List.mem_map.mp hx with ⟨c, hc, hcx⟩
    rw [← hcx]
    exact evalLines_nonneg hlb c hc
  rcases h : scatterEval bet (scatterCount grid) with _ | c
  · simpa [h] using h1
  · have h2 := scatterEval_nonneg hbet h
    simp only [h]
    exact add_nonneg h1 h2

theorem assoc_setBalance_self {ws : List (String × ℚ)} {pid : String}
    {b0 : ℚ} (h : assoc pid ws = some b0) (b : ℚ) :
    assoc pid (setBalance ws pid b) = some b := by
  induction ws with
  | nil => simp [assoc] at h
  | cons kv rest ih =>
    rcases kv with ⟨k, v⟩
    rw [setBalance, List.map_cons]
    by_cases hk : k = pid
    · subst hk
      rw [if_pos rfl, assoc, if_pos rfl]
    · have hk' : ¬pid = k := fun hh => hk hh.symm
      rw [assoc, if_neg hk'] at h
      rw [if_neg hk, assoc, if_neg hk']
      simpa [setBalance] using ih h

/-! ### Characterizations of the `spin` endpoint's control flow -/

/-- Successful validation: the result of `spin` once every precondition
holds, for either value of the fault flag. -/
theorem spin_checked {st : St} {game_id session_id player_id : String}
    {bet : ℚ} {grid : Grid} {round_id : String} {sess : SessionRec}
    {balance : ℚ}
    (hs : assoc session_id st.sessions = some sess)
    (ha : sess.active = true)
    (hp : sess.player_id = player_id)
    (hw : assoc player_id st.wallets = some balance)
    (hbet : 0 < bet) (hbal : bet ≤ balance) (fault : Bool) :
    spin st game_id session_id player_id bet grid round_id fault =
      if fault then (st, .error .txFault)
      else
        ({ st with
            wallets := setBalance st.wallets player_id
              (balance - bet + (evalSpin grid bet).winAmount)
            rounds :=
              { id := round_id, player_id := player_id
                session_id := session_id, game_id := game_id
                bet_amount := bet, win_amount := (evalSpin grid bet).winAmount
                new_balance := balance - bet + (evalSpin grid bet).winAmount } ::
                st.rounds },
         .ok
          { round_id := round_id, player_id := player_id, game_id := game_id
            bet_amount := bet, win_amount := (evalSpin grid bet).winAmount
            new_balance := balance - bet + (evalSpin grid bet).winAmount
            grid := grid
            line_wins := if (evalSpin grid bet).messages.isEmpty then none
              else some (evalSpin grid bet).messages
            scatter_count := (evalSpin grid bet).scatterCount }) := by
  unfold spin
  rw [hs, hw]
  simp [ha, hp, not_le.mpr hbet, not_lt.mpr hbal]

theorem spin_unknown_session {st : St} {game_id session_id player_id : String}
    {bet : ℚ} {grid : Grid} {round_id : String} {fault : Bool}
    (hs : assoc session_id st.sessions = none) :
    spin st game_id session_id player_id bet grid round_id fault =
      (st, .error .invalidSession) := by
  unfold spin
  rw [hs]

theorem spin_inactive_session {st : St} {game_id session_id player_id : String}
    {bet : ℚ} {grid : Grid} {round_id : String} {fault : Bool}
    {sess : SessionRec}
    (hs : assoc session_id st.sessions = some sess)
    (ha : sess.active = false) :
    spin st game_id session_id player_id bet grid round_id fault =
      (st, .error .invalidSession) := by
  unfold spin
  rw [hs]
  simp [ha]

theorem spin_mismatch {st : St} {game_id session_id player_id : String}
    {bet : ℚ} {grid : Grid} {round_id : String} {fault : Bool}
    {sess : SessionRec}
    (hs : assoc session_id st.sessions = some sess)
    (ha : sess.active = true)
    (hp : sess.player_id ≠ player_id) :
    spin st game_id session_id player_id bet grid round_id fault =
      (st, .error .sessionPlayerMismatch) := by
  unfold spin
  rw [hs]
  simp [ha, hp]

theorem spin_no_wallet {st : St} {game_id session_id player_id : String}
    {bet : ℚ} {grid : Grid} {round_id : String} {fault : Bool}
    {sess : SessionRec}
    (hs : assoc session_id st.sessions = some sess)
    (ha : sess.active = true)
    (hp : sess.player_id = player_id)
    (hw : assoc player_id st.wallets = none) :
    spin st game_id session_id player_id bet grid round_id fault =
      (st, .error .walletNotFound) := by
  unfold spin
  rw [hs, hw]
  simp [ha, hp]

theorem spin_nonpositive_bet {st : St} {game_id session_id player_id : String}
    {bet : ℚ} {grid : Grid} {round_id : String} {fault : Bool}
    {sess : SessionRec} {balance : ℚ}
    (hs : assoc session_id st.sessions = some sess)
    (ha : sess.active = true)
    (hp : sess.player_id = player_id)
    (hw : assoc player_id st.wallets = some balance)
    (hbet : bet ≤ 0) :
    spin st game_id session_id player_id bet grid round_id fault =
      (st, .error .nonPositiveBet) := by
  unfold spin
  rw [hs, hw]
  simp [ha, hp, hbet]

theorem spin_insufficient {st : St} {game_id session_id player_id : String}
    {bet : ℚ} {grid : Grid} {round_id : String} {fault : Bool}
    {sess : SessionRec} {balance : ℚ}
    (hs : assoc session_id st.sessions = some sess)
    (ha : sess.active = true)
    (hp : sess.player_id = player_id)
    (hw : assoc player_id st.wallets = some balance)
    (hbet : ¬bet ≤ 0)
    (hbal : balance < bet) :
    spin st game_id session_id player_id bet grid round_id fault =
      (st, .error .insufficientBalance) := by
  unfold spin
  rw [hs, hw]
  simp [ha, hp, hbet, hbal]

/-- Inversion: any successful `spin` response is the one the engine
computed for the drawn grid and the requested bet. -/
theorem spin_ok_inv {st st' : St} {game_id session_id player_id : String}
    {bet : ℚ} {grid : Grid} {round_id : String} {fault : Bool}
    {resp : SpinResponse}
    (h : spin st game_id session_id player_id bet grid round_id fault =
      (st', .ok resp)) :
    resp.bet_amount = bet ∧
    resp.win_amount = (evalSpin grid bet).winAmount ∧
    resp.grid = grid ∧
    resp.line_wins = (if (evalSpin grid bet).messages.isEmpty then none
      else some (evalSpin grid bet).messages) ∧
    resp.scatter_count = (evalSpin grid bet).scatterCount := by
  rcases hs : assoc session_id st.sessions with _ | sess
  · rw [spin_unknown_session hs] at h
    simp at h
  rcases ha : sess.active with _ | _
  · rw [spin_inactive_session hs ha] at h
    simp at h
  by_cases hp : sess.player_id = player_id
  swap
  · rw [spin_mismatch hs ha hp] at h
    simp at h
  rcases hw : assoc player_id st.wallets with _ | balance
  · rw [spin_no_wallet hs ha hp hw] at h
    simp at h
  by_cases hbet : bet ≤ 0
  · rw [spin_nonpositive_bet hs ha hp hw hbet] at h
    simp at h
  by_cases hbal : balance < bet
  · rw [spin_insufficient hs ha hp hw hbet hbal] at h
    simp at h
  rcases fault with _ | _
  · rw [spin_checked hs ha hp hw (not_le.mp hbet) (not_lt.mp hbal) false] at h
    simp only [if_neg Bool.false_ne_true, Prod.mk.injEq, Except.ok.injEq] at h
    rw [← h.2]
    exact ⟨rfl, rfl, rfl, rfl, rfl⟩
  · rw [spin_checked hs ha hp hw (not_le.mp hbet) (not_lt.mp hbal) true] at h
    simp at h

/-! ### Run-length and scatter characterizations -/

/-- The first `count` cells of the line all carry the leftmost symbol. -/
theorem runLen_take (base : String) (rest : List String) :
    (base :: rest).take (runLen base rest) =
      List.replicate (runLen base rest) base := by
  have h2 : matchedRun base rest =
      List.replicate (matchedRun base rest).length base :=
    List.eq_replicate_iff.mpr ⟨rfl, fun s hs => matchedRun_mem hs⟩
  rw [runLen, Nat.add_comm, List.take_succ_cons, matchedRun_take,
    List.replicate_succ]
  exact congrArg _ h2

/-- The cell right after the counted run is never the leftmost symbol:
the loop `break`s there (or the line has ended). -/
theorem matchedRun_stop_get? (base : String) :
    ∀ rest : List String,
      rest.get? (matchedRun base rest).length ≠ some base := by
  intro rest
  induction rest with
  | nil => simp
  | cons x xs ih =>
    by_cases hx : x = base
    · rw [matchedRun, if_pos hx, List.length_cons, List.get?_cons_succ]
      exact ih
    · rw [matchedRun, if_neg hx, List.length_nil, List.get?_cons_zero]
      simpa using hx

/-- The cell at index `runLen` of the whole line (the first one past the
counted run), when it exists, differs from the leftmost symbol. -/
theorem runLen_stop_get? (base : String) (rest : List String) :
    (base :: rest).get? (runLen base rest) ≠ some base := by
  rw [runLen, Nat.add_comm, List.get?_cons_succ]
  exact matchedRun_stop_get? base rest

/-- Every cell strictly inside the counted run equals the leftmost symbol
(so a wild cell is counted only when the leftmost symbol is itself `W`). -/
theorem runLen_get? (base : String) (rest : List String) {i : Nat}
    (hi : i < runLen base rest) : (base :: rest).get? i = some base := by
  have htake := runLen_take base rest
  have h1 : ((base :: rest).take (runLen base rest)).get? i =
      (base :: rest).get? i := List.get?_take hi
  rw [← h1, htake]
  simp [List.get?_eq_getElem?, List.getElem?_eq_getElem, hi]

/-- With `sc ≥ 3` the applicable-keys filter over the scatter paytable is
nonempty and its maximum is the largest tabulated threshold `≤ sc`. -/
theorem scatterEval_of_ge3 (bet : ℚ) (sc : Nat) (h3 : 3 ≤ sc) :
    ∃ best mult,
      best ∈ SCATTER_PAY.map Prod.fst ∧ best ≤ sc ∧
      (∀ k ∈ SCATTER_PAY.map Prod.fst, k ≤ sc → k ≤ best) ∧
      assoc best SCATTER_PAY = some mult ∧
      scatterEval bet sc = some (.scatter sc (bet * mult)) := by
  rcases Nat.lt_or_ge sc 4 with h4 | h4
  · have hsc : sc = 3 := by omega
    subst hsc
    refine ⟨3, 2, by decide, by decide, ?_, by decide, ?_⟩
    · intro k hk hk3
      exact hk3
    · rw [scatterEval, if_pos h3]
      rw [show ((SCATTER_PAY.map Prod.fst).filter (· ≤ 3)).max? = some 3
        from by decide]
      rw [Option.some_bind]
      rw [show assoc 3 SCATTER_PAY = some 2 from by decide]
      rfl
  rcases Nat.lt_or_ge sc 5 with h5 | h5
  · have hsc : sc = 4 := by omega
    subst hsc
    refine ⟨4, 5, by decide, by decide, ?_, by decide, ?_⟩
    · intro k hk hk4
      exact hk4
    · rw [scatterEval, if_pos h3]
      rw [show ((SCATTER_PAY.map Prod.fst).filter (· ≤ 4)).max? = some 4
        from by decide]
      rw [Option.some_bind]
      rw [show assoc 4 SCATTER_PAY = some 5 from by decide]
      rfl
  · refine ⟨5, 20, by decide, h5, ?_, by decide, ?_⟩
    · intro k hk _
      have hk' : k = 3 ∨ k = 4 ∨ k = 5 := by simpa [SCATTER_PAY] using hk
      rcases hk' with h | h | h <;> omega
    · have hfil : (SCATTER_PAY.map Prod.fst).filter (· ≤ sc) = [3, 4, 5] := by
        have d3 : ((3 : ℕ) ≤ sc) := by omega
        have d4 : ((4 : ℕ) ≤ sc) := by omega
        simp [SCATTER_PAY, List.filter, d3, d4, h5]
      rw [scatterEval, if_pos h3, hfil]
      rw [show ([3, 4, 5] : List ℕ).max? = some 5 from by decide]
      rw [Option.some_bind]
      rw [show assoc 5 SCATTER_PAY = some 20 from by decide]
      rfl

theorem length_filter_map_range (p : String → Bool) (f : Nat → String)
    (n : Nat) :
    (((List.range n).map f).filter p).length =
      ∑ c ∈ Finset.range n, if p (f c) then 1 else 0 := by
  induction n with
  | zero => simp
  | succ n ih =>
    rw [List.range_succ, List.map_append, List.filter_append,
      List.length_append, ih, Finset.sum_range_succ]
    by_cases hp : p (f n) <;> simp [List.filter, hp]

theorem length_filter_flatten (p : String → Bool) (L : List (List String)) :
    (L.flatten.filter p).length =
      (L.map fun l => (l.filter p).length).sum := by
  induction L with
  | nil => simp
  | cons x xs ih =>
    rw [List.flatten_cons, List.filter_append, List.length_append, ih,
      List.map_cons, List.sum_cons]

theorem sum_map_range (h : Nat → Nat) (n : Nat) :
    ((List.range n).map h).sum = ∑ i ∈ Finset.range n, h i := by
  induction n with
  | zero => simp
  | succ n ih =>
    rw [List.range_succ, List.map_append, List.sum_append,
      Finset.sum_range_succ, ih]
    simp

/-- The scatter count is the number of cells anywhere in the 3×5 grid that
carry the scatter symbol. -/
theorem scatterCount_eq_sum (grid : Grid) :
    scatterCount grid =
      ∑ r ∈ Finset.range SLOT_ROWS, ∑ c ∈ Finset.range SLOT_REELS,
        if grid r c = SCATTER_SYMBOL then 1 else 0 := by
  rw [scatterCount, gridRows, length_filter_flatten, List.map_map]
  rw [show ((fun l => (List.filter (· == SCATTER_SYMBOL) l).length) ∘
      fun r => (List.range SLOT_REELS).map (grid r)) =
      fun r => (((List.range SLOT_REELS).map (grid r)).filter
        (· == SCATTER_SYMBOL)).length from rfl]
  have hrow : ∀ r, (((List.range SLOT_REELS).map (grid r)).filter
      (· == SCATTER_SYMBOL)).length =
      ∑ c ∈ Finset.range SLOT_REELS,
        if grid r c = SCATTER_SYMBOL then 1 else 0 := by
    intro r
    rw [length_filter_map_range]
    apply Finset.sum_congr rfl
    intro c _
    by_cases hc : grid r c = SCATTER_SYMBOL <;> simp [hc]
  rw [show (fun r => (((List.range SLOT_REELS).map (grid r)).filter
      (· == SCATTER_SYMBOL)).length) =
      fun r => ∑ c ∈ Finset.range SLOT_REELS,
        if grid r c = SCATTER_SYMBOL then 1 else 0 from funext hrow]
  exact sum_map_range _ _

/-! ### `start_session` characterizations -/

/-- Returning pair: the player and wallet rows are found, so only a new
active session row is inserted. -/
theorem start_session_existing {st : St} {op ext sid pid : String} {bal : ℚ}
    (hp : assoc (op, ext) st.players = some pid)
    (hw : assoc pid st.wallets = some bal) :
    start_session st op ext sid =
      ({ st with sessions := (sid, ⟨pid, true⟩) :: st.sessions },
       { session_id := sid, player_id := pid, balance := bal }) := by
  unfold start_session
  rw [hp]
  simp [hw]

/-- First contact: player and wallet are created, the wallet with the
1000.0 demo starting balance. -/
theorem start_session_first {st : St} {op ext sid : String}
    (hp : assoc (op, ext) st.players = none)
    (hw : assoc ("player-" ++ ext) st.wallets = none) :
    start_session st op ext sid =
      ({ st with
          players := ((op, ext), "player-" ++ ext) :: st.players
          wallets := ("player-" ++ ext, (1000 : ℚ)) :: st.wallets
          sessions := (sid, ⟨"player-" ++ ext, true⟩) :: st.sessions },
       { session_id := sid, player_id := "player-" ++ ext,
         balance := 1000 }) := by
  unfold start_session
  rw [hp]
  simp [hw]

/-! ### Claims -/

/-- C1: for a spin with wager `w > 0` against an existing wallet with
balance `≥ w`, a successful settlement leaves the wallet at
`old balance − w + payout`, and the payout is exactly the sum of the
recorded contribution amounts (payline wins plus scatter win). -/
theorem C1_settlement_balance {st : St}
    {game_id session_id player_id round_id : String} {bet : ℚ} {grid : Grid}
    {sess : SessionRec} {balance : ℚ}
    (hs : assoc session_id st.sessions = some sess)
    (ha : sess.active = true)
    (hp : sess.player_id = player_id)
    (hw : assoc player_id st.wallets = some balance)
    (hbet : 0 < bet) (hbal : bet ≤ balance) :
    ∃ st' resp,
      spin st game_id session_id player_id bet grid round_id false =
        (st', .ok resp) ∧
      resp.new_balance = balance - bet + resp.win_amount ∧
      assoc player_id st'.wallets = some (balance - bet + resp.win_amount) ∧
      resp.win_amount = (evalSpin grid bet).winAmount ∧
      resp.win_amount =
        ((evalSpin grid bet).messages.map Contribution.amount).sum := by
  rw [spin_checked hs ha hp hw hbet hbal false,
    if_neg Bool.false_ne_true]
  refine ⟨_, _, rfl, rfl, ?_, rfl, evalSpin_winAmount_eq_sum grid bet⟩
  exact assoc_setBalance_self hw _

/-- C2: under the checked preconditions (`balance ≥ wager`, wager `> 0`)
and a never-negative payout, the post-settlement balance is
non-negative. -/
theorem C2_balance_nonneg {st : St}
    {game_id session_id player_id round_id : String} {bet : ℚ} {grid : Grid}
    {sess : SessionRec} {balance : ℚ}
    (hs : assoc session_id st.sessions = some sess)
    (ha : sess.active = true)
    (hp : sess.player_id = player_id)
    (hw : assoc player_id st.wallets = some balance)
    (hbet : 0 < bet) (hbal : bet ≤ balance) :
    ∃ st' resp,
      spin st game_id session_id player_id bet grid round_id false =
        (st', .ok resp) ∧
      0 ≤ (evalSpin grid bet).winAmount ∧
      0 ≤ resp.new_balance ∧
      assoc player_id st'.wallets = some resp.new_balance := by
  rw [spin_checked hs ha hp hw hbet hbal false,
    if_neg Bool.false_ne_true]
  have hwin : 0 ≤ (evalSpin grid bet).winAmount :=
    evalSpin_winAmount_nonneg (le_of_lt hbet)
  refine ⟨_, _, rfl, hwin, ?_, ?_⟩
  · show (0 : ℚ) ≤ balance - bet + (evalSpin grid bet).winAmount
    have : (0 : ℚ) ≤ balance - bet := by linarith
    linarith
  · exact assoc_setBalance_self hw _

/-- C5: every declined-request condition is reported as its own distinct
client-fault error with the committed state unchanged, and for a
session/player mismatch the result does not depend on the drawn grid
(no outcome-engine evaluation). -/
theorem C5_declined_no_mutation (st : St)
    (game_id session_id player_id : String) (bet : ℚ) (grid : Grid)
    (round_id : String) (fault : Bool) :
    (assoc session_id st.sessions = none →
      spin st game_id session_id player_id bet grid round_id fault =
        (st, .error .invalidSession)) ∧
    (∀ sess, assoc session_id st.sessions = some sess → sess.active = false →
      spin st game_id session_id player_id bet grid round_id fault =
        (st, .error .invalidSession)) ∧
    (∀ sess, assoc session_id st.sessions = some sess → sess.active = true →
      sess.player_id ≠ player_id →
      spin st game_id session_id player_id bet grid round_id fault =
        (st, .error .sessionPlayerMismatch) ∧
      (∀ grid2 : Grid,
        spin st game_id session_id player_id bet grid round_id fault =
          spin st game_id session_id player_id bet grid2 round_id fault)) ∧
    (∀ sess, assoc session_id st.sessions = some sess → sess.active = true →
      sess.player_id = player_id → assoc player_id st.wallets = none →
      spin st game_id session_id player_id bet grid round_id fault =
        (st, .error .walletNotFound)) ∧
    (∀ sess balance, assoc session_id st.sessions = some sess →
      sess.active = true → sess.player_id = player_id →
      assoc player_id st.wallets = some balance → bet ≤ 0 →
      spin st game_id session_id player_id bet grid round_id fault =
        (st, .error .nonPositiveBet)) ∧
    (∀ sess balance, assoc session_id st.sessions = some sess →
      sess.active = true → sess.player_id = player_id →
      assoc player_id st.wallets = some balance → ¬bet ≤ 0 →
      balance < bet →
      spin st game_id session_id player_id bet grid round_id fault =
        (st, .error .insufficientBalance)) := by
  refine ⟨?_, ?_, ?_, ?_, ?_, ?_⟩
  · intro hs
    exact spin_unknown_session hs
  · intro sess hs ha
    exact spin_inactive_session hs ha
  · intro sess hs ha hp
    refine ⟨spin_mismatch hs ha hp, ?_⟩
    intro grid2
    rw [spin_mismatch hs ha hp, spin_mismatch hs ha hp]
  · intro sess hs ha hp hw
    exact spin_no_wallet hs ha hp hw
  · intro sess balance hs ha hp hw hbet
    exact spin_nonpositive_bet hs ha hp hw hbet
  · intro sess balance hs ha hp hw hbet hbal
    exact spin_insufficient hs ha hp hw hbet hbal

/-- C6: a fault between the debit and the commit rolls the settlement
back: the wallet table and the round table are exactly as before the
attempt, and the distinct transaction-fault error is raised. -/
theorem C6_rollback {st : St}
    {game_id session_id player_id round_id : String} {bet : ℚ} {grid : Grid}
    {sess : SessionRec} {balance : ℚ}
    (hs : assoc session_id st.sessions = some sess)
    (ha : sess.active = true)
    (hp : sess.player_id = player_id)
    (hw : assoc player_id st.wallets = some balance)
    (hbet : 0 < bet) (hbal : bet ≤ balance) :
    (spin st game_id session_id player_id bet grid round_id true).1.wallets =
      st.wallets ∧
    (spin st game_id session_id player_id bet grid round_id true).1.rounds =
      st.rounds ∧
    assoc player_id
      (spin st game_id session_id player_id bet grid round_id true).1.wallets =
        some balance ∧
    (spin st game_id session_id player_id bet grid round_id true).2 =
      .error .txFault := by
  rw [spin_checked hs ha hp hw hbet hbal true, if_pos rfl]
  exact ⟨rfl, rfl, hw, rfl⟩

/-- C7: the evaluation is a pure function of the drawn grid and the wager:
two successful settlements from arbitrary states and sessions, on the
identical grid with the identical wager, report identical payout and
identical ordered contribution list (and scatter count). -/
theorem C7_deterministic_eval {st1 st2 st1' st2' : St}
    {gid1 gid2 sid1 sid2 pid1 pid2 rid1 rid2 : String} {bet : ℚ}
    {grid : Grid} {r1 r2 : SpinResponse}
    (h1 : spin st1 gid1 sid1 pid1 bet grid rid1 false = (st1', .ok r1))
    (h2 : spin st2 gid2 sid2 pid2 bet grid rid2 false = (st2', .ok r2)) :
    r1.win_amount = r2.win_amount ∧ r1.line_wins = r2.line_wins ∧
    r1.scatter_count = r2.scatter_count := by
  obtain ⟨-, w1, -, l1, s1⟩ := spin_ok_inv h1
  obtain ⟨-, w2, -, l2, s2⟩ := spin_ok_inv h2
  rw [w1, w2, l1, l2, s1, s2]
  exact ⟨rfl, rfl, rfl⟩

/-- C8 (amended): a successful spin result carries the engine's total
payout, the drawn grid and the ordered contribution list — but when there
are no wins the contribution-list field is `None`
(`line_wins=line_win_messages or None`), not an empty list. -/
theorem C8_result_payload {st st' : St}
    {game_id session_id player_id round_id : String} {bet : ℚ} {grid : Grid}
    {fault : Bool} {resp : SpinResponse}
    (h : spin st game_id session_id player_id bet grid round_id fault =
      (st', .ok resp)) :
    resp.win_amount = (evalSpin grid bet).winAmount ∧
    resp.grid = grid ∧
    resp.line_wins = (if (evalSpin grid bet).messages.isEmpty then none
      else some (evalSpin grid bet).messages) ∧
    ((evalSpin grid bet).messages = [] → resp.line_wins = none) := by
  obtain ⟨-, hwin, hgrid, hlw, -⟩ := spin_ok_inv h
  refine ⟨hwin, hgrid, hlw, ?_⟩
  intro hnil
  rw [hlw, hnil]
  rfl

/-- C3: a payline whose leftmost symbol is the scatter or is untabulated
contributes nothing; otherwise the run is the count of consecutive cells
equal to the leftmost symbol (cells inside the run all equal it, the cell
right after it differs), and the line pays
`(wager / paylines) × multiplier(symbol, run)` iff the run is `≥ 3` and
that run length is a key of the symbol's paytable entry. -/
theorem C3_payline_rules (lb : ℚ) (base : String) (rest : List String) :
    ((base = SCATTER_SYMBOL ∨ assoc base PAYTABLE = none) →
      lineWin lb (base :: rest) = none) ∧
    (∀ tbl, base ≠ SCATTER_SYMBOL → assoc base PAYTABLE = some tbl →
      ((base :: rest).take (runLen base rest) =
        List.replicate (runLen base rest) base) ∧
      ((base :: rest).get? (runLen base rest) ≠ some base) ∧
      (∀ mult, 3 ≤ runLen base rest →
        assoc (runLen base rest) tbl = some mult →
        lineWin lb (base :: rest) = some (base, runLen base rest, lb * mult)) ∧
      ((runLen base rest < 3 ∨ assoc (runLen base rest) tbl = none) →
        lineWin lb (base :: rest) = none)) := by
  constructor
  · rintro (hb | hb)
    · simp [lineWin, hb]
    · simp [lineWin, hb]
  · intro tbl hb htbl
    refine ⟨runLen_take base rest, runLen_stop_get? base rest, ?_, ?_⟩
    · intro mult h3 hm
      simp [lineWin, hb, htbl, h3, hm]
    · rintro (hlt | hm)
      · simp [lineWin, hb, htbl, Nat.not_le.mpr hlt]
      · by_cases h3 : 3 ≤ runLen base rest
        · simp [lineWin, hb, htbl, h3, hm]
        · simp [lineWin, hb, htbl, h3]

/-- C4: scatter evaluation counts the scatter cells anywhere in the 3×5
grid; a count `≤ 2` pays nothing, and a count `≥ 3` pays the total wager
times the multiplier of the highest tabulated threshold `≤` the count
(counts above the highest threshold use that threshold's multiplier). -/
theorem C4_scatter_rules (grid : Grid) (bet : ℚ) :
    (scatterCount grid =
      ∑ r ∈ Finset.range SLOT_ROWS, ∑ c ∈ Finset.range SLOT_REELS,
        if grid r c = SCATTER_SYMBOL then 1 else 0) ∧
    (∀ sc : Nat, sc ≤ 2 → scatterEval bet sc = none) ∧
    (∀ sc : Nat, 3 ≤ sc → ∃ best mult,
      best ∈ SCATTER_PAY.map Prod.fst ∧ best ≤ sc ∧
      (∀ k ∈ SCATTER_PAY.map Prod.fst, k ≤ sc → k ≤ best) ∧
      assoc best SCATTER_PAY = some mult ∧
      scatterEval bet sc = some (.scatter sc (bet * mult))) := by
  refine ⟨scatterCount_eq_sum grid, ?_, ?_⟩
  · intro sc hsc
    rw [scatterEval, if_neg (by omega)]
  · intro sc h3
    exact scatterEval_of_ge3 bet sc h3

/-- C9: the wild symbol `W` is an ordinary line symbol whose tabulated
multipliers strictly dominate every other symbol's at each run length,
and run counting extends a run only with cells equal to the leftmost
symbol, so `W` matches only itself and never substitutes. -/
theorem C9_wild_no_substitution :
    (∀ wtbl, assoc "W" PAYTABLE = some wtbl →
      ∀ p ∈ PAYTABLE, p.1 ≠ "W" → ∀ q ∈ p.2, ∀ r ∈ wtbl,
        q.1 = r.1 → q.2 < r.2) ∧
    (∀ (base : String) (rest : List String) (i : Nat),
      i < runLen base rest → (base :: rest).get? i = some base) ∧
    (∀ (base : String) (rest : List String) (i : Nat), base ≠ "W" →
      i < runLen base rest → (base :: rest).get? i ≠ some "W") := by
  refine ⟨?_, ?_, ?_⟩
  · intro wtbl hw
    have hwtbl : wtbl = [(3, 8), (4, 16), (5, 32)] := by
      have : some wtbl = some [(3, (8 : ℚ)), (4, 16), (5, 32)] := by
        rw [← hw]; decide
      simpa using this
    subst hwtbl
    decide
  · intro base rest i hi
    exact runLen_get? base rest hi
  · intro base rest i hbase hi hcontra
    have := runLen_get? base rest hi
    rw [this] at hcontra
    exact hbase (by simpa using hcontra)

/-- C10: starting a session for an operator/external-player pair that
already has a player and wallet adds a new active session and leaves the
wallet table untouched, reporting the existing balance; the 1000.0
starting balance is assigned only on first contact for the pair. -/
theorem C10_session_start_frame (st : St) (op ext sid : String) :
    (∀ pid bal, assoc (op, ext) st.players = some pid →
      assoc pid st.wallets = some bal →
      (start_session st op ext sid).1.wallets = st.wallets ∧
      assoc sid (start_session st op ext sid).1.sessions =
        some ⟨pid, true⟩ ∧
      (start_session st op ext sid).2.balance = bal) ∧
    (assoc (op, ext) st.players = none →
      assoc ("player-" ++ ext) st.wallets = none →
      (start_session st op ext sid).2.balance = 1000 ∧
      assoc ("player-" ++ ext) (start_session st op ext sid).1.wallets =
        some 1000) := by
  constructor
  · intro pid bal hp hw
    rw [start_session_existing hp hw]
    exact ⟨rfl, by simp [assoc], rfl⟩
  · intro hp hw
    rw [start_session_first hp hw]
    exact ⟨rfl, by simp [assoc]⟩

/-! ### Witnesses -/

/-- C1 witness at a concrete state, session, wallet, wager and grid. -/
theorem C1_settlement_balance_witness :
    ∃ st' resp,
      spin sampleState "game-1" "sid-1" "player-ext-1" 10 winGrid "rid-1"
        false = (st', .ok resp) ∧
      resp.new_balance = 1000 - 10 + resp.win_amount ∧
      assoc "player-ext-1" st'.wallets =
        some (1000 - 10 + resp.win_amount) ∧
      resp.win_amount = (evalSpin winGrid 10).winAmount ∧
      resp.win_amount =
        ((evalSpin winGrid 10).messages.map Contribution.amount).sum :=
  C1_settlement_balance rfl rfl rfl rfl (by norm_num) (by norm_num)

/-- C2 witness at a concrete state, session, wallet, wager and grid. -/
theorem C2_balance_nonneg_witness :
    ∃ st' resp,
      spin sampleState "game-1" "sid-1" "player-ext-1" 10 winGrid "rid-1"
        false = (st', .ok resp) ∧
      0 ≤ (evalSpin winGrid 10).winAmount ∧
      0 ≤ resp.new_balance ∧
      assoc "player-ext-1" st'.wallets = some resp.new_balance :=
  C2_balance_nonneg rfl rfl rfl rfl (by norm_num) (by norm_num)

/-- C3 witness: a 3-run of aces pays `line_bet × 5`, and a line led by the
scatter pays nothing. -/
theorem C3_payline_rules_witness :
    (("A" :: ["A", "A", "K", "A"]).take (runLen "A" ["A", "A", "K", "A"]) =
      List.replicate (runLen "A" ["A", "A", "K", "A"]) "A") ∧
    lineWin 2 ("A" :: ["A", "A", "K", "A"]) =
      some ("A", runLen "A" ["A", "A", "K", "A"], 2 * 5) ∧
    lineWin 2 ("S" :: ["Q", "Q", "Q", "Q"]) = none := by
  have h2 := (C3_payline_rules 2 "A" ["A", "A", "K", "A"]).2
    [(3, 5), (4, 10), (5, 20)] (by decide) (by decide)
  exact ⟨h2.1, h2.2.2.1 5 (by decide) (by decide),
    (C3_payline_rules 2 "S" ["Q", "Q", "Q", "Q"]).1 (Or.inl rfl)⟩

/-- C4 witness: the cell-count identity on a concrete grid, a 2-scatter
count paying nothing, and a count of 7 paid at the highest threshold. -/
theorem C4_scatter_rules_witness :
    (scatterCount noWinGrid =
      ∑ r ∈ Finset.range SLOT_ROWS, ∑ c ∈ Finset.range SLOT_REELS,
        if noWinGrid r c = SCATTER_SYMBOL then 1 else 0) ∧
    scatterEval 10 2 = none ∧
    (∃ best mult, best ∈ SCATTER_PAY.map Prod.fst ∧ best ≤ 7 ∧
      (∀ k ∈ SCATTER_PAY.map Prod.fst, k ≤ 7 → k ≤ best) ∧
      assoc best SCATTER_PAY = some mult ∧
      scatterEval 10 7 = some (.scatter 7 (10 * mult))) := by
  have h := C4_scatter_rules noWinGrid 10
  exact ⟨h.1, h.2.1 2 (by norm_num), h.2.2 7 (by norm_num)⟩

/-- C5 witness: each declined condition at a concrete input, with the
state returned unchanged and the mismatch case independent of the grid. -/
theorem C5_declined_no_mutation_witness :
    spin sampleState "game-1" "sid-unknown" "player-ext-1" 10 noWinGrid
      "rid-1" false = (sampleState, .error .invalidSession) ∧
    spin sampleState "game-1" "sid-3" "player-ext-1" 10 noWinGrid "rid-1"
      false = (sampleState, .error .invalidSession) ∧
    spin sampleState "game-1" "sid-2" "player-ext-1" 10 noWinGrid "rid-1"
      false = (sampleState, .error .sessionPlayerMismatch) ∧
    spin sampleState "game-1" "sid-2" "player-ext-1" 10 noWinGrid "rid-1"
      false =
      spin sampleState "game-1" "sid-2" "player-ext-1" 10 winGrid "rid-1"
        false ∧
    spin sampleState "game-1" "sid-2" "p1" 10 noWinGrid "rid-1" false =
      (sampleState, .error .walletNotFound) ∧
    spin sampleState "game-1" "sid-1" "player-ext-1" 0 noWinGrid "rid-1"
      false = (sampleState, .error .nonPositiveBet) ∧
    spin sampleState "game-1" "sid-1" "player-ext-1" 2000 noWinGrid "rid-1"
      false = (sampleState, .error .insufficientBalance) := by
  refine ⟨(C5_declined_no_mutation sampleState "game-1" "sid-unknown"
      "player-ext-1" 10 noWinGrid "rid-1" false).1 rfl,
    (C5_declined_no_mutation sampleState "game-1" "sid-3" "player-ext-1" 10
      noWinGrid "rid-1" false).2.1 ⟨"player-ext-1", false⟩ rfl rfl,
    ((C5_declined_no_mutation sampleState "game-1" "sid-2" "player-ext-1" 10
      noWinGrid "rid-1" false).2.2.1 ⟨"p1", true⟩ rfl rfl (by decide)).1,
    ((C5_declined_no_mutation sampleState "game-1" "sid-2" "player-ext-1" 10
      noWinGrid "rid-1" false).2.2.1 ⟨"p1", true⟩ rfl rfl
        (by decide)).2 winGrid,
    (C5_declined_no_mutation sampleState "game-1" "sid-2" "p1" 10 noWinGrid
      "rid-1" false).2.2.2.1 ⟨"p1", true⟩ rfl rfl rfl rfl,
    (C5_declined_no_mutation sampleState "game-1" "sid-1" "player-ext-1" 0
      noWinGrid "rid-1" false).2.2.2.2.1 ⟨"player-ext-1", true⟩ 1000 rfl rfl
        rfl rfl (by norm_num),
    (C5_declined_no_mutation sampleState "game-1" "sid-1" "player-ext-1"
      2000 noWinGrid "rid-1" false).2.2.2.2.2 ⟨"player-ext-1", true⟩ 1000 rfl
        rfl rfl rfl (by norm_num) (by norm_num)⟩

/-- C6 witness: an injected fault at a concrete input leaves the wallet
and round tables untouched. -/
theorem C6_rollback_witness :
    (spin sampleState "game-1" "sid-1" "player-ext-1" 10 winGrid "rid-1"
      true).1.wallets = sampleState.wallets ∧
    (spin sampleState "game-1" "sid-1" "player-ext-1" 10 winGrid "rid-1"
      true).1.rounds = sampleState.rounds ∧
    assoc "player-ext-1"
      (spin sampleState "game-1" "sid-1" "player-ext-1" 10 winGrid "rid-1"
        true).1.wallets = some 1000 ∧
    (spin sampleState "game-1" "sid-1" "player-ext-1" 10 winGrid "rid-1"
      true).2 = .error .txFault :=
  C6_rollback rfl rfl rfl rfl (by norm_num) (by norm_num)

/-- C7 witness: the same grid spun from two unrelated states and sessions
yields the same payout, contribution list and scatter count. -/
theorem C7_deterministic_eval_witness :
    sampleResp1.win_amount = sampleResp2.win_amount ∧
    sampleResp1.line_wins = sampleResp2.line_wins ∧
    sampleResp1.scatter_count = sampleResp2.scatter_count := by
  have h1 : spin sampleState "game-1" "sid-1" "player-ext-1" 10 noWinGrid
      "rid-1" false = (sampleSt1', .ok sampleResp1) := by
    norm_num +decide [spin, sampleState, sampleSt1', sampleResp1, noWinGrid,
      assoc, setBalance, evalSpin, evalLines, PAYLINES, lineWin, lineSymbols,
      runLen, matchedRun, PAYTABLE, SCATTER_SYMBOL, scatterCount, gridRows,
      SLOT_ROWS, SLOT_REELS, scatterEval, SCATTER_PAY, List.range,
      List.range.loop, List.enum, List.enumFrom, List.filterMap]
  have h2 : spin sampleState2 "game-2" "sess-b" "p2" 10 noWinGrid
      "rid-2" false = (sampleSt2', .ok sampleResp2) := by
    norm_num +decide [spin, sampleState2, sampleSt2', sampleResp2, noWinGrid,
      assoc, setBalance, evalSpin, evalLines, PAYLINES, lineWin, lineSymbols,
      runLen, matchedRun, PAYTABLE, SCATTER_SYMBOL, scatterCount, gridRows,
      SLOT_ROWS, SLOT_REELS, scatterEval, SCATTER_PAY, List.range,
      List.range.loop, List.enum, List.enumFrom, List.filterMap]
  exact C7_deterministic_eval h1 h2

/-- C8 witness (amended claim) at a concrete successful no-win spin. -/
theorem C8_result_payload_witness :
    sampleResp1.win_amount = (evalSpin noWinGrid 10).winAmount ∧
    sampleResp1.grid = noWinGrid ∧
    sampleResp1.line_wins = (if (evalSpin noWinGrid 10).messages.isEmpty
      then none else some (evalSpin noWinGrid 10).messages) ∧
    ((evalSpin noWinGrid 10).messages = [] → sampleResp1.line_wins = none) := by
  have h1 : spin sampleState "game-1" "sid-1" "player-ext-1" 10 noWinGrid
      "rid-1" false = (sampleSt1', .ok sampleResp1) := by
    norm_num +decide [spin, sampleState, sampleSt1', sampleResp1, noWinGrid,
      assoc, setBalance, evalSpin, evalLines, PAYLINES, lineWin, lineSymbols,
      runLen, matchedRun, PAYTABLE, SCATTER_SYMBOL, scatterCount, gridRows,
      SLOT_ROWS, SLOT_REELS, scatterEval, SCATTER_PAY, List.range,
      List.range.loop, List.enum, List.enumFrom, List.filterMap]
  exact C8_result_payload h1

/-- C8 counterexample to the claim as stated: a successful spin with no
wins whose contribution-list field is `None`, not the empty list. -/
theorem C8_empty_list_counterexample :
    spin sampleState "game-1" "sid-1" "player-ext-1" 10 noWinGrid "rid-1"
      false = (sampleSt1', .ok sampleResp1) ∧
    sampleResp1.win_amount = 0 ∧
    sampleResp1.line_wins = none ∧
    sampleResp1.line_wins ≠ some [] := by
  refine ⟨?_, rfl, rfl, by simp [sampleResp1]⟩
  norm_num +decide [spin, sampleState, sampleSt1', sampleResp1, noWinGrid,
    assoc, setBalance, evalSpin, evalLines, PAYLINES, lineWin, lineSymbols,
    runLen, matchedRun, PAYTABLE, SCATTER_SYMBOL, scatterCount, gridRows,
    SLOT_ROWS, SLOT_REELS, scatterEval, SCATTER_PAY, List.range,
    List.range.loop, List.enum, List.enumFrom, List.filterMap]

/-- C9 witness: concrete dominance of `W` multipliers over the ace's, and
a wild cell not extending an ace run. -/
theorem C9_wild_no_substitution_witness :
    (∀ q ∈ [((3 : Nat), (5 : ℚ)), (4, 10), (5, 20)],
      ∀ r ∈ [((3 : Nat), (8 : ℚ)), (4, 16), (5, 32)],
        q.1 = r.1 → q.2 < r.2) ∧
    ("A" :: ["W", "A", "A", "A"]).get? 0 = some "A" ∧
    ("A" :: ["W", "A", "A", "A"]).get? 0 ≠ some "W" := by
  have h := C9_wild_no_substitution
  exact ⟨h.1 [(3, 8), (4, 16), (5, 32)] (by decide)
      ("A", [(3, 5), (4, 10), (5, 20)]) (by decide) (by decide),
    h.2.1 "A" ["W", "A", "A", "A"] 0 (by decide),
    h.2.2 "A" ["W", "A", "A", "A"] 0 (by decide) (by decide)⟩

/-- C10 witness: a returning pair keeps its wallet, a fresh pair gets the
1000.0 starting balance. -/
theorem C10_session_start_frame_witness :
    ((start_session sampleState "op-1" "ext-1" "sid-9").1.wallets =
        sampleState.wallets ∧
      assoc "sid-9" (start_session sampleState "op-1" "ext-1"
        "sid-9").1.sessions = some ⟨"player-ext-1", true⟩ ∧
      (start_session sampleState "op-1" "ext-1" "sid-9").2.balance = 1000) ∧
    ((start_session sampleState2 "op-9" "ext-9" "sid-9").2.balance = 1000 ∧
      assoc ("player-" ++ "ext-9") (start_session sampleState2 "op-9" "ext-9"
        "sid-9").1.wallets = some 1000) :=
  ⟨(C10_session_start_frame sampleState "op-1" "ext-1" "sid-9").1
      "player-ext-1" 1000 rfl rfl,
    (C10_session_start_frame sampleState2 "op-9" "ext-9" "sid-9").2 rfl rfl⟩

end RGS

-- sanity checks (concrete evaluation)
example : RGS.runLen "A" ["A", "A", "K", "A"] = 3 := by decide
example : RGS.lineWin 2 ["A", "A", "A", "K", "A"] = some ("A", 3, 10) := by
  norm_num +decide [RGS.lineWin, RGS.runLen, RGS.matchedRun, RGS.PAYTABLE,
    RGS.SCATTER_SYMBOL, RGS.assoc]
example : RGS.lineWin 2 ["S", "S", "S", "S", "S"] = none := by decide
example : RGS.lineWin 2 ["A", "K", "A", "A", "A"] = none := by decide
example : RGS.scatterEval 10 2 = none := by decide
example : RGS.scatterEval 10 4 = some (.scatter 4 50) := by
  norm_num [RGS.scatterEval, RGS.SCATTER_PAY, RGS.assoc, List.max?]
example : RGS.scatterEval 10 7 = some (.scatter 7 200) := by
  norm_num [RGS.scatterEval, RGS.SCATTER_PAY, RGS.assoc, List.max?]
